import Mathlib

/-!
Verification of the HTTP control-plane protocol of `src/service/http_protocol.py`
(mock-amqp-server).

The file shallowly embeds the module: raw bytes are `List Nat`; the h11 parser
is modelled at its event level (`H11Event`), as the spec treats byte-level HTTP
grammar as an external primitive; the h11 send side is modelled by the single
fact this code depends on: after one response has been sent on a connection
(the code never calls `start_next_cycle` and always declares `Connection:
close`), any further `send` raises `LocalProtocolError`.  Python exceptions are
modelled by threading a `Sys × Option PyError` result through every function
(`some e` = an exception `e` is propagating, with the state as mutated so far).
The collaborator `global_state` and the JSON library are oracles in `Env`.
Ghost log fields (`getCalls`, `postCalls`, `putCalls`, `deleted`, `published`,
`waits`) record handler invocations and collaborator effects; they influence
nothing and only make dispatch observable in theorem statements.
-/

namespace MockAmqp

/-- A byte string, as a list of byte values. -/
abbrev Bytes := List Nat

/-- UTF-8 encoding of one character (model of Python `str.encode('utf-8')`
at the code-point level). -/
def utf8Char (c : Char) : List Nat :=
  let n := c.toNat
  if n < 0x80 then [n]
  else if n < 0x800 then [0xC0 + n / 0x40, 0x80 + n % 0x40]
  else if n < 0x10000 then
    [0xE0 + n / 0x1000, 0x80 + (n / 0x40) % 0x40, 0x80 + n % 0x40]
  else
    [0xF0 + n / 0x40000, 0x80 + (n / 0x1000) % 0x40,
     0x80 + (n / 0x40) % 0x40, 0x80 + n % 0x40]

/-- `str.encode('utf-8')`. -/
def bytes (s : String) : Bytes := (s.data.map utf8Char).flatten

/-- Split off the part of `l` before the first `sep`; the second component is
the remainder after that `sep`, or `none` when `l` holds no `sep`. -/
def breakSep (sep : Char) : List Char → List Char × Option (List Char)
  | [] => ([], none)
  | c :: cs =>
    if c = sep then ([], some cs)
    else
      let r := breakSep sep cs
      (c :: r.1, r.2)

/-- Python `s.split(sep, maxsplit)` on character lists: at most `maxsplit`
splits are made, the final element holds the remainder verbatim. -/
def pySplit (sep : Char) : Nat → List Char → List (List Char)
  | 0, rest => [rest]
  | Nat.succ m, l =>
    match breakSep sep l with
    | (seg, none) => [seg]
    | (seg, some rest) => seg :: pySplit sep m rest

/-- Digit-run parser used by `pyInt`: accepts digits with single underscores
between digits, as Python `int()` does. `acc` is the value read so far. -/
def pyDigitsAux : List Char → Nat → Option Nat
  | [], acc => some acc
  | ['_'], _ => none
  | '_' :: c :: cs, acc =>
    if c.isDigit then pyDigitsAux cs (acc * 10 + (c.toNat - 48)) else none
  | c :: cs, acc =>
    if c.isDigit then pyDigitsAux cs (acc * 10 + (c.toNat - 48)) else none

/-- A nonempty digit run (first character must be a digit). -/
def pyDigits : List Char → Option Nat
  | [] => none
  | c :: cs => if c.isDigit then pyDigitsAux cs (c.toNat - 48) else none

/-- Python `int(s)` for a decoded string: optional surrounding whitespace,
optional sign, decimal digits (underscores allowed between digits).
`none` models `ValueError`.  (Non-ASCII digit support is out of scope.) -/
def pyInt (s : String) : Option Int :=
  let l := (((s.data.dropWhile Char.isWhitespace).reverse.dropWhile
    Char.isWhitespace).reverse)
  match l with
  | '+' :: rest => (pyDigits rest).map Int.ofNat
  | '-' :: rest => (pyDigits rest).map (fun n => -(Int.ofNat n))
  | rest => (pyDigits rest).map Int.ofNat

/-- JSON values as produced by `json.loads` (numeric model restricted to
integers; floats are irrelevant to the routes). -/
inductive Json where
  | null : Json
  | bool (b : Bool) : Json
  | num (n : Int) : Json
  | str (s : String) : Json
  | arr (elems : List Json) : Json
  | obj (fields : List (String × Json)) : Json

/-- Python `d[k]` on a parsed JSON value: defined (as `some`) only for
objects holding the key; the last duplicate key wins, as in `json.loads`.
`none` models the `KeyError`/`TypeError` raised otherwise. -/
def Json.getItem : Json → String → Option Json
  | .obj fields, k =>
    fields.foldl (fun acc p => if p.1 = k then some p.2 else acc) none
  | _, _ => none

/-- Python exception classes distinguished by the module.  Only `waitTimeout`
(`state.WaitTimeout`) is ever caught specifically; the rest matter only as
"some exception propagates". -/
inductive PyError where
  | waitTimeout : PyError
  | valueError : PyError
  | typeError : PyError
  | keyError : PyError
  | indexError : PyError
  | attributeError : PyError
  | jsonDecodeError : PyError
  | localProtocolError : PyError
  | remoteProtocolError : PyError
  | other : PyError
deriving DecidableEq, Repr

/-- The `_RequestState` enum. -/
inductive RequestState where
  | waitingHeaders : RequestState
  | waitingBody : RequestState
deriving DecidableEq, Repr

/-- HTTP method as compared by the code (`event.method == b'GET'` …). -/
inductive HMethod where
  | GET : HMethod
  | POST : HMethod
  | PUT : HMethod
  | DELETE : HMethod
  | otherMethod (name : String) : HMethod
deriving DecidableEq, Repr

/-- Parser events, the contract of the external h11 primitive: request-started,
body-chunk, request-ended.  `parseError` models `next_event` raising
`h11.RemoteProtocolError` on unparseable bytes. -/
inductive H11Event where
  | request (method : HMethod) (target : String) : H11Event
  | data (chunk : Bytes) : H11Event
  | endOfMessage : H11Event
  | parseError : H11Event
deriving DecidableEq, Repr

/-- A registered deferred wait (`asyncio.ensure_future` of a collaborator
predicate-wait, with `_on_get_done` as its completion callback). -/
inductive WaitKind where
  | auth (username : String) : WaitKind
  | ack (deliveryTag : Int) : WaitKind
  | bound (queue : String) (exchange : String) : WaitKind
deriving DecidableEq, Repr

/-- One framed HTTP response as handed to the transport. -/
structure Response where
  status : Nat
  headers : List (String × Bytes)
  body : Bytes
deriving DecidableEq, Repr

/-- The connection-local fields of `HTTPProtocol`, plus the h11 send-side
summary `responded` (true once a response has been sent; the code never
starts a new h11 cycle, so any later send raises `LocalProtocolError`). -/
structure Conn where
  state : RequestState
  method : Option HMethod
  target : Option String
  responded : Bool
deriving DecidableEq, Repr

/-- Whole observable system state: connection fields, responses written to the
transport, registered waits, transport closure, and ghost logs of handler
invocations and collaborator effects. -/
structure Sys where
  conn : Conn
  written : List Response
  waits : List WaitKind
  closed : Bool
  getCalls : List String
  postCalls : List (String × Bytes)
  putCalls : List (String × Bytes)
  deleteCalls : List String
  deleted : List String
  published : List (String × Json × Bytes)

/-- The environment: the injected `global_state` collaborator, the JSON
library, and the formatted date header value. -/
structure Env where
  dateBytes : Bytes
  jsonLoads : Bytes → Option Json
  jsonDumps : Json → Bytes
  get_messages_of_queue : String → Option Json
  get_messages_of_exchange : String → Option Json
  publish_message : String → Json → Bytes → Option Int

/-- The header block every response is built with (lines 217–222 / 259–264 of
the source): `Date`, `Server`, `Content-Length`, `Connection: close`, in that
order.  `clValue` is the rendered `Content-Length` value. -/
def mkHeaders (env : Env) (clValue : Bytes) : List (String × Bytes) :=
  [("Date", env.dateBytes), ("Server", bytes "whatever"),
   ("Content-Length", clValue), ("Connection", bytes "close")]

/-- `http_parser.send(h11.Response(...))` followed by `transport.write`:
succeeds and records the response when no response has been sent yet on this
connection, else raises `LocalProtocolError` (the code never starts a new h11
cycle and every response declares `Connection: close`). -/
def h11SendResponse (s : Sys) (r : Response) : Sys × Option PyError :=
  if s.conn.responded then (s, some .localProtocolError)
  else ({ s with conn := { s.conn with responded := true },
                 written := s.written ++ [r] }, none)

/-- `_send_http_response_no_content` (status 204, literal `b'0'`
content-length, no body frame). -/
def send_http_response_no_content (env : Env) (s : Sys) : Sys × Option PyError :=
  h11SendResponse s { status := 204, headers := mkHeaders env (bytes "0"), body := [] }

/-- The response value built by `_send_http_response_with_body`:
`Content-Length` is `str(len(body))`. -/
def respWithBody (env : Env) (status : Nat) (body : Bytes) : Response :=
  { status := status, headers := mkHeaders env (bytes (toString body.length)),
    body := body }

/-- `_send_http_response_with_body`. -/
def send_http_response_with_body (env : Env) (s : Sys) (status : Nat)
    (body : Bytes) : Sys × Option PyError :=
  h11SendResponse s (respWithBody env status body)

/-- `_send_http_response_forbidden`. -/
def send_http_response_forbidden (env : Env) (s : Sys) : Sys × Option PyError :=
  send_http_response_with_body env s 403 (bytes "forbidden\n")

/-- `_send_http_response_timeout`. -/
def send_http_response_timeout (env : Env) (s : Sys) : Sys × Option PyError :=
  send_http_response_with_body env s 504 (bytes "timeout\n")

/-- `_send_http_response_not_found`. -/
def send_http_response_not_found (env : Env) (s : Sys) : Sys × Option PyError :=
  send_http_response_with_body env s 404 (bytes "not found\n")

/-- `_send_http_response_ok` (appends the trailing newline). -/
def send_http_response_ok (env : Env) (s : Sys) (body : Bytes) :
    Sys × Option PyError :=
  send_http_response_with_body env s 200 (body ++ bytes "\n")

/-- `_send_http_internal_server_error`. -/
def send_http_internal_server_error (env : Env) (s : Sys) : Sys × Option PyError :=
  send_http_response_with_body env s 500 (bytes "internal server error\n")

/-- `target.split(b'/', maxsplit=2)[2]`: `none` models `IndexError`. -/
def seg2 (t : String) : Option String :=
  ((pySplit '/' 2 t.data).get? 2).map (fun l => ⟨l⟩)

/-- Body of the `/queue-bound-to-exchange/` branch of `_on_get`:
`_, _, queue, exchange = target.split(b'/', maxsplit=3)` (a tuple-unpack
mismatch raises `ValueError`), then register the binding wait. -/
def boundRoute (s : Sys) (t : String) : Sys × Option PyError :=
  match pySplit '/' 3 t.data with
  | [_, _, q, e] => ({ s with waits := s.waits ++ [.bound ⟨q⟩ ⟨e⟩] }, none)
  | _ => (s, some .valueError)

/-- Character-list prefix test (structural, so that it evaluates on partially
symbolic targets). -/
def isPrefixCL : List Char → List Char → Bool
  | [], _ => true
  | _ :: _, [] => false
  | p :: ps, c :: cs => if p = c then isPrefixCL ps cs else false

/-- `t.startswith(p)`. -/
def startswith (t p : String) : Bool := isPrefixCL p.data t.data

/-- `_on_get` (lines 83–165).  Deferred branches only register the wait (the
response comes from `on_get_done` when the future settles); immediate
branches answer synchronously.  The entry append to `getCalls` is a ghost
record of the invocation. -/
def on_get (env : Env) (s : Sys) (target : String) : Sys × Option PyError :=
  let s := { s with getCalls := s.getCalls ++ [target] }
  if startswith target "/authentification-done-with-success-on/" then
    match seg2 target with
    | none => (s, some .indexError)
    | some u => ({ s with waits := s.waits ++ [.auth u] }, none)
  else if startswith target "/messages-acknowledged/" then
    match seg2 target with
    | none => (s, some .indexError)
    | some seg =>
      match pyInt seg with
      | none => (s, some .valueError)
      | some tag => ({ s with waits := s.waits ++ [.ack tag] }, none)
  else if startswith target "/messages-in-queue/" then
    match seg2 target with
    | none => (s, some .indexError)
    | some qn =>
      match env.get_messages_of_queue qn with
      | none => send_http_response_not_found env s
      | some msgs => send_http_response_ok env s (env.jsonDumps msgs)
  else if startswith target "/messages-in-exchange/" then
    match seg2 target with
    | none => (s, some .indexError)
    | some en =>
      match env.get_messages_of_exchange en with
      | none => send_http_response_not_found env s
      | some msgs => send_http_response_ok env s (env.jsonDumps msgs)
  else if startswith target "/queue-bound-to-exchange/" then
    boundRoute s target
  else send_http_response_not_found env s

/-- `_on_post` (lines 167–184).  The entry append to `postCalls` is a ghost
record of the invocation and of the buffer the handler received. -/
def on_post (env : Env) (s : Sys) (target : String) (chunk : Bytes) :
    Sys × Option PyError :=
  let s := { s with postCalls := s.postCalls ++ [(target, chunk)] }
  if startswith target "/add-message-on/" then
    match seg2 target with
    | none => (s, some .indexError)
    | some ex =>
      match env.jsonLoads chunk with
      | none => (s, some .jsonDecodeError)
      | some msg =>
        match msg.getItem "headers" with
        | none => (s, some .keyError)
        | some hdrs =>
          match msg.getItem "body" with
          | none => (s, some .keyError)
          | some (.str bodyStr) =>
            let s := { s with
              published := s.published ++ [(ex, hdrs, bytes bodyStr)] }
            match env.publish_message ex hdrs (bytes bodyStr) with
            | none => send_http_response_not_found env s
            | some tag => send_http_response_ok env s (bytes (toString tag))
          | some _ => (s, some .typeError)
  else send_http_response_not_found env s

/-- `_on_delete` (lines 186–195).  `delete_messages_of_queue` returns nothing;
its effect is the ghost `deleted` record. -/
def on_delete (env : Env) (s : Sys) (target : String) : Sys × Option PyError :=
  let s := { s with deleteCalls := s.deleteCalls ++ [target] }
  if startswith target "/messages-in-queue/" then
    match seg2 target with
    | none => (s, some .indexError)
    | some qn =>
      send_http_response_no_content env { s with deleted := s.deleted ++ [qn] }
  else send_http_response_not_found env s

/-- `_on_put` (lines 197–198): unconditionally not-found. -/
def on_put (env : Env) (s : Sys) (target : String) (chunk : Bytes) :
    Sys × Option PyError :=
  let s := { s with putCalls := s.putCalls ++ [(target, chunk)] }
  send_http_response_not_found env s

/-- How the future a deferred wait registered eventually settles:
`future.result()` returns a boolean or raises. -/
inductive FutureOutcome where
  | result (success : Bool) : FutureOutcome
  | raised (e : PyError) : FutureOutcome
deriving DecidableEq, Repr

/-- `_on_get_done` (lines 200–211), the completion callback of every deferred
wait: resolved-false → forbidden, resolved-true → no-content, `WaitTimeout` →
timeout; any other exception is not caught and propagates.  (The sends can
only raise `LocalProtocolError`, never `WaitTimeout`, so the `except
WaitTimeout` clause fires exactly for a raising `future.result()`.) -/
def on_get_done (env : Env) (s : Sys) : FutureOutcome → Sys × Option PyError
  | .result false => send_http_response_forbidden env s
  | .result true => send_http_response_no_content env s
  | .raised e =>
    if e = .waitTimeout then send_http_response_timeout env s else (s, some e)

/-- One iteration of the `_data_received` drain loop (lines 47–81) on one
parser event.  The three `if` blocks of the loop body are reproduced; the
`continue` statements only skip blocks that could not match the same event
anyway, so a per-event-kind case split is faithful. -/
def processEvent (env : Env) (s : Sys) : H11Event → Sys × Option PyError
  | .parseError => (s, some .remoteProtocolError)
  | .request m t =>
    if s.conn.state = RequestState.waitingHeaders then
      let s := { s with conn := { s.conn with method := some m, target := some t } }
      match m with
      | .GET => on_get env s t
      | .DELETE => on_delete env s t
      | .POST =>
        ({ s with conn := { s.conn with state := RequestState.waitingBody } }, none)
      | .PUT =>
        ({ s with conn := { s.conn with state := RequestState.waitingBody } }, none)
      | .otherMethod _ => (s, none)
    else (s, none)
  | .data chunk =>
    if s.conn.state = RequestState.waitingBody then
      match s.conn.method with
      | some .POST =>
        match s.conn.target with
        | some t => on_post env s t chunk
        | none => (s, some .attributeError)
      | some .PUT =>
        match s.conn.target with
        | some t => on_put env s t chunk
        | none => (s, some .attributeError)
      | _ => (s, none)
    else (s, none)
  | .endOfMessage =>
    ({ s with
       conn :=
         { s.conn with
           state := RequestState.waitingHeaders, method := none, target := none } },
     none)

/-- `_data_received`: drain the parser events in order, stopping when an
exception propagates (the list plays the role of the events derivable from
the buffered bytes, ending at `NEED_DATA`). -/
def processEvents (env : Env) (s : Sys) : List H11Event → Sys × Option PyError
  | [] => (s, none)
  | ev :: evs =>
    match processEvent env s ev with
    | (s', none) => processEvents env s' evs
    | (s', some e) => (s', some e)

/-- The `except` block of `data_received` (lines 38–41), entered with the
propagating exception `e` and the state as mutated so far: attempt a 500
response; if that succeeds, close the transport and re-raise `e`; if the 500
attempt itself raises, Python never reaches `self.transport.close()` and the
new exception propagates instead. -/
def data_received_error (env : Env) (s1 : Sys) (e : PyError) :
    Sys × Option PyError :=
  match send_http_internal_server_error env s1 with
  | (s2, none) => ({ s2 with closed := true }, some e)
  | (s2, some e2) => (s2, some e2)

/-- `data_received` (lines 34–41): `try: _data_received` and on any exception
run the `except` block. -/
def data_received (env : Env) (s : Sys) (evs : List H11Event) :
    Sys × Option PyError :=
  match processEvents env s evs with
  | (s1, none) => (s1, none)
  | (s1, some e) => data_received_error env s1 e

/-- A freshly constructed `HTTPProtocol` connection. -/
def initConn : Conn :=
  { state := RequestState.waitingHeaders, method := none, target := none,
    responded := false }

/-- Fresh system state for a new connection. -/
def initSys : Sys :=
  { conn := initConn, written := [], waits := [], closed := false,
    getCalls := [], postCalls := [], putCalls := [], deleteCalls := [],
    deleted := [], published := [] }

/-- A concrete environment used to evaluate the model on closed inputs:
queue `q` exists, exchange `E` exists with delivery tag 7, and the byte
string `M` decodes as the JSON object `{"headers": {}, "body": "hi"}`. -/
def testEnv : Env :=
  { dateBytes := bytes "Sun, 12 Oct 2026 00:00:00 GMT",
    jsonLoads := fun b =>
      if b = bytes "{}" then some (.obj [])
      else if b = bytes "M" then
        some (.obj [("headers", .obj []), ("body", .str "hi")])
      else none,
    jsonDumps := fun _ => bytes "[]",
    get_messages_of_queue := fun q => if q = "q" then some (.arr []) else none,
    get_messages_of_exchange := fun _ => none,
    publish_message := fun e _ _ => if e = "E" then some 7 else none }

/-! ### Basic lemmas about the Python primitives -/

theorem data_append (a b : String) : (a ++ b).data = a.data ++ b.data := by
  obtain ⟨ad⟩ := a
  obtain ⟨bd⟩ := b
  rfl

theorem breakSep_append_sep (sep : Char) (p rest : List Char) (h : sep ∉ p) :
    breakSep sep (p ++ sep :: rest) = (p, some rest) := by
  induction p with
  | nil => simp [breakSep]
  | cons c cs ih =>
    rw [List.mem_cons, not_or] at h
    have hc : ¬c = sep := fun he => h.1 he.symm
    simp [breakSep, hc, ih h.2]

theorem pySplit_succ_of_sep (sep : Char) (m : Nat) (p rest : List Char)
    (h : sep ∉ p) :
    pySplit sep (m + 1) (p ++ sep :: rest) = p :: pySplit sep m rest := by
  rw [pySplit, breakSep_append_sep sep p rest h]

/-! ### Step lemmas for the drain loop and the `try`/`except` wrapper -/

theorem processEvents_cons_none (env : Env) (s s' : Sys) (ev : H11Event)
    (evs : List H11Event) (h : processEvent env s ev = (s', none)) :
    processEvents env s (ev :: evs) = processEvents env s' evs := by
  rw [processEvents, h]

theorem processEvents_cons_some (env : Env) (s s' : Sys) (ev : H11Event)
    (evs : List H11Event) (e : PyError)
    (h : processEvent env s ev = (s', some e)) :
    processEvents env s (ev :: evs) = (s', some e) := by
  rw [processEvents, h]

theorem data_received_of_ok (env : Env) (s s1 : Sys) (evs : List H11Event)
    (h : processEvents env s evs = (s1, none)) :
    data_received env s evs = (s1, none) := by
  rw [data_received, h]

theorem data_received_of_error (env : Env) (s s1 : Sys) (evs : List H11Event)
    (e : PyError) (h : processEvents env s evs = (s1, some e)) :
    data_received env s evs = data_received_error env s1 e := by
  rw [data_received, h]

/-! ### Projection lemmas for the response senders -/

theorem h11SendResponse_conn_state (s : Sys) (r : Response) :
    ((h11SendResponse s r).1).conn.state = s.conn.state := by
  unfold h11SendResponse
  split <;> rfl

theorem h11SendResponse_getCalls (s : Sys) (r : Response) :
    ((h11SendResponse s r).1).getCalls = s.getCalls := by
  unfold h11SendResponse
  split <;> rfl

theorem h11SendResponse_deleteCalls (s : Sys) (r : Response) :
    ((h11SendResponse s r).1).deleteCalls = s.deleteCalls := by
  unfold h11SendResponse
  split <;> rfl

theorem h11SendResponse_not_responded (s : Sys) (r : Response)
    (h : s.conn.responded = false) :
    h11SendResponse s r =
      ({ s with conn := { s.conn with responded := true },
                written := s.written ++ [r] }, none) := by
  unfold h11SendResponse
  rw [h]
  simp

/-! ### Route evaluation lemmas for `on_get` -/

theorem on_get_auth (env : Env) (s : Sys) (u : String) :
    on_get env s ("/authentification-done-with-success-on/" ++ u) =
      ({ s with
         getCalls := s.getCalls ++ ["/authentification-done-with-success-on/" ++ u],
         waits := s.waits ++ [.auth u] }, none) := by
  obtain ⟨ud⟩ := u
  rfl

theorem on_get_ack (env : Env) (s : Sys) (ts : String) :
    on_get env s ("/messages-acknowledged/" ++ ts) =
      (match pyInt ts with
       | none =>
         ({ s with getCalls := s.getCalls ++ ["/messages-acknowledged/" ++ ts] },
          some .valueError)
       | some tag =>
         ({ s with getCalls := s.getCalls ++ ["/messages-acknowledged/" ++ ts],
                   waits := s.waits ++ [.ack tag] }, none)) := by
  obtain ⟨tsd⟩ := ts
  rfl

theorem on_get_queue (env : Env) (s : Sys) (q : String) :
    on_get env s ("/messages-in-queue/" ++ q) =
      (match env.get_messages_of_queue q with
       | none =>
         send_http_response_not_found env
           { s with getCalls := s.getCalls ++ ["/messages-in-queue/" ++ q] }
       | some msgs =>
         send_http_response_ok env
           { s with getCalls := s.getCalls ++ ["/messages-in-queue/" ++ q] }
           (env.jsonDumps msgs)) := by
  obtain ⟨qd⟩ := q
  rfl

theorem on_get_exchange (env : Env) (s : Sys) (e : String) :
    on_get env s ("/messages-in-exchange/" ++ e) =
      (match env.get_messages_of_exchange e with
       | none =>
         send_http_response_not_found env
           { s with getCalls := s.getCalls ++ ["/messages-in-exchange/" ++ e] }
       | some msgs =>
         send_http_response_ok env
           { s with getCalls := s.getCalls ++ ["/messages-in-exchange/" ++ e] }
           (env.jsonDumps msgs)) := by
  obtain ⟨ed⟩ := e
  rfl

theorem bound_target_data (q e : String) :
    ("/queue-bound-to-exchange/" ++ q ++ "/" ++ e).data =
      '/' :: ("queue-bound-to-exchange".data ++ '/' :: (q.data ++ '/' :: e.data)) := by
  obtain ⟨qd⟩ := q
  obtain ⟨ed⟩ := e
  show (('/' :: ("queue-bound-to-exchange".data ++ ['/'] ++ qd) ++ ['/']) ++ ed) = _
  simp

theorem on_get_bound (env : Env) (s : Sys) (q e : String) (hq : '/' ∉ q.data) :
    on_get env s ("/queue-bound-to-exchange/" ++ q ++ "/" ++ e) =
      ({ s with
         getCalls := s.getCalls ++ ["/queue-bound-to-exchange/" ++ q ++ "/" ++ e],
         waits := s.waits ++ [.bound q e] }, none) := by
  have h1 : on_get env s ("/queue-bound-to-exchange/" ++ q ++ "/" ++ e) =
      boundRoute
        { s with
          getCalls := s.getCalls ++ ["/queue-bound-to-exchange/" ++ q ++ "/" ++ e] }
        ("/queue-bound-to-exchange/" ++ q ++ "/" ++ e) := by
    obtain ⟨qd⟩ := q
    obtain ⟨ed⟩ := e
    rfl
  have hQ : '/' ∉ "queue-bound-to-exchange".data := by decide
  rw [h1, boundRoute, bound_target_data,
    show ('/' :: ("queue-bound-to-exchange".data ++ '/' :: (q.data ++ '/' :: e.data)))
        = [] ++ '/' :: ("queue-bound-to-exchange".data ++ '/' :: (q.data ++ '/' :: e.data))
      from rfl,
    pySplit_succ_of_sep '/' 2 [] _ (by decide),
    pySplit_succ_of_sep '/' 1 _ _ hQ,
    pySplit_succ_of_sep '/' 0 _ _ hq]
  obtain ⟨qd⟩ := q
  obtain ⟨ed⟩ := e
  rfl

theorem on_get_not_found (env : Env) (s : Sys) (t : String)
    (h1 : startswith t "/authentification-done-with-success-on/" = false)
    (h2 : startswith t "/messages-acknowledged/" = false)
    (h3 : startswith t "/messages-in-queue/" = false)
    (h4 : startswith t "/messages-in-exchange/" = false)
    (h5 : startswith t "/queue-bound-to-exchange/" = false) :
    on_get env s t =
      send_http_response_not_found env
        { s with getCalls := s.getCalls ++ [t] } := by
  rw [on_get]
  simp [h1, h2, h3, h4, h5]

/-! ### Route evaluation lemmas for `on_post` and `on_delete` -/

theorem on_post_add_message (env : Env) (s : Sys) (ex : String) (b : Bytes) :
    on_post env s ("/add-message-on/" ++ ex) b =
      (let s1 := { s with
         postCalls := s.postCalls ++ [("/add-message-on/" ++ ex, b)] }
       match env.jsonLoads b with
       | none => (s1, some .jsonDecodeError)
       | some msg =>
         match msg.getItem "headers" with
         | none => (s1, some .keyError)
         | some hdrs =>
           match msg.getItem "body" with
           | none => (s1, some .keyError)
           | some (.str bodyStr) =>
             let s2 := { s1 with
               published := s1.published ++ [(ex, hdrs, bytes bodyStr)] }
             match env.publish_message ex hdrs (bytes bodyStr) with
             | none => send_http_response_not_found env s2
             | some tag => send_http_response_ok env s2 (bytes (toString tag))
           | some _ => (s1, some .typeError)) := by
  obtain ⟨exd⟩ := ex
  rfl

theorem on_delete_queue (env : Env) (s : Sys) (q : String) :
    on_delete env s ("/messages-in-queue/" ++ q) =
      send_http_response_no_content env
        { s with deleteCalls := s.deleteCalls ++ ["/messages-in-queue/" ++ q],
                 deleted := s.deleted ++ [q] } := by
  obtain ⟨qd⟩ := q
  rfl

/-! ### Handler projection lemmas (connection phase and ghost logs) -/

theorem send_with_body_conn_state (env : Env) (s : Sys) (st : Nat) (b : Bytes) :
    ((send_http_response_with_body env s st b).1).conn.state = s.conn.state :=
  h11SendResponse_conn_state s _

theorem send_no_content_conn_state (env : Env) (s : Sys) :
    ((send_http_response_no_content env s).1).conn.state = s.conn.state :=
  h11SendResponse_conn_state s _

theorem boundRoute_conn_state (s : Sys) (t : String) :
    ((boundRoute s t).1).conn.state = s.conn.state := by
  rw [boundRoute]
  split <;> rfl

theorem boundRoute_getCalls (s : Sys) (t : String) :
    ((boundRoute s t).1).getCalls = s.getCalls := by
  rw [boundRoute]
  split <;> rfl

theorem on_get_conn_state (env : Env) (s : Sys) (t : String) :
    ((on_get env s t).1).conn.state = s.conn.state := by
  rw [on_get]
  repeat' split
  all_goals
    first
      | rfl
      | exact h11SendResponse_conn_state _ _
      | exact boundRoute_conn_state _ _

theorem on_post_conn_state (env : Env) (s : Sys) (t : String) (b : Bytes) :
    ((on_post env s t b).1).conn.state = s.conn.state := by
  rw [on_post]
  repeat' split
  all_goals
    first
      | rfl
      | exact h11SendResponse_conn_state _ _

theorem on_delete_conn_state (env : Env) (s : Sys) (t : String) :
    ((on_delete env s t).1).conn.state = s.conn.state := by
  rw [on_delete]
  repeat' split
  all_goals
    first
      | rfl
      | exact h11SendResponse_conn_state _ _

theorem on_put_conn_state (env : Env) (s : Sys) (t : String) (b : Bytes) :
    ((on_put env s t b).1).conn.state = s.conn.state := by
  rw [on_put]
  exact h11SendResponse_conn_state _ _

theorem on_get_getCalls (env : Env) (s : Sys) (t : String) :
    ((on_get env s t).1).getCalls = s.getCalls ++ [t] := by
  rw [on_get]
  repeat' split
  all_goals
    first
      | rfl
      | exact h11SendResponse_getCalls _ _
      | exact boundRoute_getCalls _ _

/-! ### The header discipline of every written response -/

/-- The header contract: exactly `Date`, `Server`, `Content-Length`,
`Connection` in that order, with `Content-Length` the decimal byte length of
the body and `Connection: close`. -/
def headersOk (env : Env) (r : Response) : Prop :=
  r.headers = [("Date", env.dateBytes), ("Server", bytes "whatever"),
               ("Content-Length", bytes (toString r.body.length)),
               ("Connection", bytes "close")]

/-- Every response written so far obeys the header contract. -/
def writtenOk (env : Env) (s : Sys) : Prop := ∀ r ∈ s.written, headersOk env r

theorem headersOk_respWithBody (env : Env) (st : Nat) (b : Bytes) :
    headersOk env (respWithBody env st b) := rfl

theorem writtenOk_h11Send (env : Env) (s : Sys) (r : Response)
    (hr : headersOk env r) (hs : writtenOk env s) :
    writtenOk env (h11SendResponse s r).1 := by
  unfold h11SendResponse
  split
  · exact hs
  intro x hx
  rw [List.mem_append] at hx
  rcases hx with hx | hx
  · exact hs x hx
  · rw [List.mem_singleton] at hx
    rw [hx]
    exact hr

theorem writtenOk_with_body (env : Env) (s : Sys) (st : Nat) (b : Bytes)
    (hs : writtenOk env s) :
    writtenOk env (send_http_response_with_body env s st b).1 :=
  writtenOk_h11Send env s _ (headersOk_respWithBody env st b) hs

theorem writtenOk_no_content (env : Env) (s : Sys) (hs : writtenOk env s) :
    writtenOk env (send_http_response_no_content env s).1 := by
  refine writtenOk_h11Send env s _ ?_ hs
  unfold headersOk
  dsimp only
  rw [show toString (List.length ([] : Bytes)) = "0" from rfl]
  rfl

theorem writtenOk_boundRoute (env : Env) (s : Sys) (t : String)
    (hs : writtenOk env s) : writtenOk env (boundRoute s t).1 := by
  rw [boundRoute]
  split
  · exact hs
  · exact hs

theorem writtenOk_on_get (env : Env) (s : Sys) (t : String)
    (hs : writtenOk env s) : writtenOk env (on_get env s t).1 := by
  rw [on_get]
  repeat' split
  all_goals
    first
      | exact hs
      | exact writtenOk_with_body env _ _ _ hs
      | exact writtenOk_no_content env _ hs
      | exact writtenOk_boundRoute env _ _ hs

theorem writtenOk_on_post (env : Env) (s : Sys) (t : String) (b : Bytes)
    (hs : writtenOk env s) : writtenOk env (on_post env s t b).1 := by
  rw [on_post]
  repeat' split
  all_goals
    first
      | exact hs
      | exact writtenOk_with_body env _ _ _ hs

theorem writtenOk_on_delete (env : Env) (s : Sys) (t : String)
    (hs : writtenOk env s) : writtenOk env (on_delete env s t).1 := by
  rw [on_delete]
  repeat' split
  all_goals
    first
      | exact hs
      | exact writtenOk_with_body env _ _ _ hs
      | exact writtenOk_no_content env _ hs

theorem writtenOk_on_put (env : Env) (s : Sys) (t : String) (b : Bytes)
    (hs : writtenOk env s) : writtenOk env (on_put env s t b).1 :=
  writtenOk_with_body env _ _ _ hs

theorem writtenOk_processEvent (env : Env) (s : Sys) (ev : H11Event)
    (hs : writtenOk env s) : writtenOk env (processEvent env s ev).1 := by
  cases ev with
  | parseError => exact hs
  | request m t =>
    rw [processEvent]
    repeat' split
    all_goals
      first
        | exact hs
        | exact writtenOk_on_get env _ _ hs
        | exact writtenOk_on_delete env _ _ hs
  | data chunk =>
    rw [processEvent]
    repeat' split
    all_goals
      first
        | exact hs
        | exact writtenOk_on_post env _ _ _ hs
        | exact writtenOk_on_put env _ _ _ hs
  | endOfMessage => exact hs

theorem writtenOk_processEvents (env : Env) (s : Sys) (evs : List H11Event)
    (hs : writtenOk env s) : writtenOk env (processEvents env s evs).1 := by
  induction evs generalizing s with
  | nil => exact hs
  | cons ev evs ih =>
    rw [processEvents]
    have h1 := writtenOk_processEvent env s ev hs
    rcases h : processEvent env s ev with ⟨s', e?⟩
    rw [h] at h1
    cases e? with
    | none => exact ih s' h1
    | some e => exact h1

theorem writtenOk_data_received_error (env : Env) (s1 : Sys) (e : PyError)
    (hs : writtenOk env s1) : writtenOk env (data_received_error env s1 e).1 := by
  have h2 := writtenOk_with_body env s1 500 (bytes "internal server error\n") hs
  rw [data_received_error]
  unfold send_http_internal_server_error
  rcases h' : send_http_response_with_body env s1 500 (bytes "internal server error\n")
    with ⟨s2, e2?⟩
  rw [h'] at h2
  cases e2? with
  | none => exact h2
  | some e2 => exact h2

theorem writtenOk_data_received (env : Env) (s : Sys) (evs : List H11Event)
    (hs : writtenOk env s) : writtenOk env (data_received env s evs).1 := by
  have h1 := writtenOk_processEvents env s evs hs
  rcases h : processEvents env s evs with ⟨s1, e?⟩
  rw [h] at h1
  cases e? with
  | none => rw [data_received_of_ok env s s1 evs h]; exact h1
  | some e =>
    rw [data_received_of_error env s s1 evs e h]
    exact writtenOk_data_received_error env s1 e h1

theorem writtenOk_on_get_done (env : Env) (s : Sys) (o : FutureOutcome)
    (hs : writtenOk env s) : writtenOk env (on_get_done env s o).1 := by
  cases o with
  | result b =>
    cases b with
    | false => exact writtenOk_with_body env _ _ _ hs
    | true => exact writtenOk_no_content env _ hs
  | raised e =>
    rw [on_get_done]
    split
    · exact writtenOk_with_body env _ _ _ hs
    · exact hs

/-! ### The concrete responses the module can emit -/

/-- The 204 response of `_send_http_response_no_content` (no body frame,
literal `Content-Length: 0`). -/
def respNoContent (env : Env) : Response :=
  { status := 204, headers := mkHeaders env (bytes "0"), body := [] }

/-- The 403 response. -/
def respForbidden (env : Env) : Response := respWithBody env 403 (bytes "forbidden\n")

/-- The 504 response. -/
def respTimeout (env : Env) : Response := respWithBody env 504 (bytes "timeout\n")

/-- The 404 response. -/
def respNotFound (env : Env) : Response := respWithBody env 404 (bytes "not found\n")

/-- The 200 response with a given payload (trailing newline appended). -/
def respOk (env : Env) (body : Bytes) : Response :=
  respWithBody env 200 (body ++ bytes "\n")

/-- The 500 response. -/
def resp500 (env : Env) : Response :=
  respWithBody env 500 (bytes "internal server error\n")

theorem h11SendResponse_responded (s : Sys) (r : Response)
    (h : s.conn.responded = true) :
    h11SendResponse s r = (s, some .localProtocolError) := by
  unfold h11SendResponse
  rw [h]
  simp

theorem send_with_body_eq (env : Env) (s : Sys) (st : Nat) (b : Bytes)
    (h : s.conn.responded = false) :
    send_http_response_with_body env s st b =
      ({ s with conn := { s.conn with responded := true },
                written := s.written ++ [respWithBody env st b] }, none) :=
  h11SendResponse_not_responded s _ h

theorem send_with_body_responded (env : Env) (s : Sys) (st : Nat) (b : Bytes)
    (h : s.conn.responded = true) :
    send_http_response_with_body env s st b = (s, some .localProtocolError) :=
  h11SendResponse_responded s _ h

theorem send_no_content_eq (env : Env) (s : Sys)
    (h : s.conn.responded = false) :
    send_http_response_no_content env s =
      ({ s with conn := { s.conn with responded := true },
                written := s.written ++ [respNoContent env] }, none) :=
  h11SendResponse_not_responded s _ h

/-! ### The wait-completion callback, case by case -/

theorem on_get_done_true (env : Env) (s : Sys)
    (h : s.conn.responded = false) :
    on_get_done env s (.result true) =
      ({ s with conn := { s.conn with responded := true },
                written := s.written ++ [respNoContent env] }, none) :=
  send_no_content_eq env s h

theorem on_get_done_false (env : Env) (s : Sys)
    (h : s.conn.responded = false) :
    on_get_done env s (.result false) =
      ({ s with conn := { s.conn with responded := true },
                written := s.written ++ [respForbidden env] }, none) :=
  send_with_body_eq env s 403 (bytes "forbidden\n") h

theorem on_get_done_timeout (env : Env) (s : Sys)
    (h : s.conn.responded = false) :
    on_get_done env s (.raised .waitTimeout) =
      ({ s with conn := { s.conn with responded := true },
                written := s.written ++ [respTimeout env] }, none) :=
  send_with_body_eq env s 504 (bytes "timeout\n") h

theorem on_get_done_raised (env : Env) (s : Sys) (e : PyError)
    (he : ¬e = .waitTimeout) :
    on_get_done env s (.raised e) = (s, some e) := by
  rw [on_get_done]
  simp [he]

/-! ### The `except` block, case by case -/

theorem data_received_error_not_responded (env : Env) (s1 : Sys) (e : PyError)
    (h : s1.conn.responded = false) :
    data_received_error env s1 e =
      ({ s1 with conn := { s1.conn with responded := true },
                 written := s1.written ++ [resp500 env],
                 closed := true }, some e) := by
  rw [data_received_error]
  unfold send_http_internal_server_error
  rw [send_with_body_eq env s1 500 (bytes "internal server error\n") h]
  exact rfl

theorem data_received_error_responded (env : Env) (s1 : Sys) (e : PyError)
    (h : s1.conn.responded = true) :
    data_received_error env s1 e = (s1, some .localProtocolError) := by
  rw [data_received_error]
  unfold send_http_internal_server_error
  rw [send_with_body_responded env s1 500 (bytes "internal server error\n") h]

theorem on_delete_deleteCalls (env : Env) (s : Sys) (t : String) :
    ((on_delete env s t).1).deleteCalls = s.deleteCalls ++ [t] := by
  rw [on_delete]
  repeat' split
  all_goals
    first
      | rfl
      | exact h11SendResponse_deleteCalls _ _

theorem processEvent_data_conn_state (env : Env) (s : Sys) (c : Bytes) :
    ((processEvent env s (.data c)).1).conn.state = s.conn.state := by
  rw [processEvent]
  repeat' split
  all_goals
    first
      | rfl
      | exact on_post_conn_state _ _ _ _
      | exact on_put_conn_state _ _ _ _

theorem processEvent_request_body_state (env : Env) (s : Sys) (m : HMethod)
    (t : String) (h : s.conn.state = RequestState.waitingBody) :
    ((processEvent env s (.request m t)).1).conn.state = s.conn.state := by
  rw [processEvent]
  rw [if_neg (by rw [h]; exact fun hh => nomatch hh)]

theorem processEvent_request_get (env : Env) (s : Sys) (t : String)
    (h : s.conn.state = RequestState.waitingHeaders) :
    processEvent env s (.request .GET t) =
      on_get env
        { s with conn := { s.conn with method := some .GET, target := some t } }
        t := by
  rw [processEvent, if_pos h]

theorem processEvent_request_delete (env : Env) (s : Sys) (t : String)
    (h : s.conn.state = RequestState.waitingHeaders) :
    processEvent env s (.request .DELETE t) =
      on_delete env
        { s with conn := { s.conn with method := some .DELETE, target := some t } }
        t := by
  rw [processEvent, if_pos h]

theorem processEvent_request_post (env : Env) (s : Sys) (t : String)
    (h : s.conn.state = RequestState.waitingHeaders) :
    processEvent env s (.request .POST t) =
      ({ s with
         conn :=
           { s.conn with
             state := RequestState.waitingBody, method := some .POST,
             target := some t } },
       none) := by
  rw [processEvent, if_pos h]

theorem processEvent_request_put (env : Env) (s : Sys) (t : String)
    (h : s.conn.state = RequestState.waitingHeaders) :
    processEvent env s (.request .PUT t) =
      ({ s with
         conn :=
           { s.conn with
             state := RequestState.waitingBody, method := some .PUT,
             target := some t } },
       none) := by
  rw [processEvent, if_pos h]

theorem processEvent_data_post (env : Env) (s : Sys) (t : String) (c : Bytes)
    (h1 : s.conn.state = RequestState.waitingBody)
    (h2 : s.conn.method = some .POST) (h3 : s.conn.target = some t) :
    processEvent env s (.data c) = on_post env s t c := by
  rw [processEvent, if_pos h1, h2, h3]

theorem processEvent_data_put (env : Env) (s : Sys) (t : String) (c : Bytes)
    (h1 : s.conn.state = RequestState.waitingBody)
    (h2 : s.conn.method = some .PUT) (h3 : s.conn.target = some t) :
    processEvent env s (.data c) = on_put env s t c := by
  rw [processEvent, if_pos h1, h2, h3]

/-! ### The claims -/

/-- **C1.** For every deferred GET route — the authentication wait, the
message-acknowledged wait and the queue-bound-to-exchange wait — processing
the request only registers the wait (no response is written then), and when
the registered wait settles the completion callback writes exactly one
response: status 204 when the predicate resolved `true`, status 403 with body
`forbidden\n` when it resolved `false`, and status 504 with body `timeout\n`
when the wait failed with the `WaitTimeout` condition.  Exactly one of these
three outcomes reaches the response writer. -/
theorem C1_deferred_wait_outcomes (env : Env) (s : Sys) (u ts q e : String)
    (k : Int) (hresp : s.conn.responded = false)
    (hts : pyInt ts = some k) (hq : '/' ∉ q.data) :
    (on_get env s ("/authentification-done-with-success-on/" ++ u) =
      ({ s with
         getCalls := s.getCalls ++ ["/authentification-done-with-success-on/" ++ u],
         waits := s.waits ++ [.auth u] }, none)) ∧
    (on_get env s ("/messages-acknowledged/" ++ ts) =
      ({ s with getCalls := s.getCalls ++ ["/messages-acknowledged/" ++ ts],
                waits := s.waits ++ [.ack k] }, none)) ∧
    (on_get env s ("/queue-bound-to-exchange/" ++ q ++ "/" ++ e) =
      ({ s with
         getCalls := s.getCalls ++ ["/queue-bound-to-exchange/" ++ q ++ "/" ++ e],
         waits := s.waits ++ [.bound q e] }, none)) ∧
    (on_get_done env s (.result true) =
      ({ s with conn := { s.conn with responded := true },
                written := s.written ++ [respNoContent env] }, none)) ∧
    (on_get_done env s (.result false) =
      ({ s with conn := { s.conn with responded := true },
                written := s.written ++ [respForbidden env] }, none)) ∧
    (on_get_done env s (.raised .waitTimeout) =
      ({ s with conn := { s.conn with responded := true },
                written := s.written ++ [respTimeout env] }, none)) ∧
    (respNoContent env).status = 204 ∧
    (respForbidden env).status = 403 ∧
    (respForbidden env).body = bytes "forbidden\n" ∧
    (respTimeout env).status = 504 ∧
    (respTimeout env).body = bytes "timeout\n" := by
  refine ⟨on_get_auth env s u, ?_, on_get_bound env s q e hq,
    on_get_done_true env s hresp, on_get_done_false env s hresp,
    on_get_done_timeout env s hresp, rfl, rfl, rfl, rfl, rfl⟩
  rw [on_get_ack env s ts, hts]

/-- Witness for C1 at concrete inputs: tag `42`, queue `q1`, exchange `e1`,
fresh connection. -/
theorem C1_witness :
    (on_get testEnv initSys ("/messages-acknowledged/" ++ "42")).1.waits =
      [WaitKind.ack 42] ∧
    (on_get testEnv initSys ("/queue-bound-to-exchange/" ++ "q1" ++ "/" ++ "e1")).1.waits =
      [WaitKind.bound "q1" "e1"] ∧
    (on_get_done testEnv initSys (.result true)).1.written = [respNoContent testEnv] ∧
    (on_get_done testEnv initSys (.result false)).1.written = [respForbidden testEnv] ∧
    (on_get_done testEnv initSys (.raised .waitTimeout)).1.written =
      [respTimeout testEnv] := by
  obtain ⟨h1, h2, h3, h4, h5, h6, _⟩ :=
    C1_deferred_wait_outcomes testEnv initSys "alice" "42" "q1" "e1" 42 rfl
      (by decide) (by decide)
  exact ⟨by rw [h2]; exact rfl, by rw [h3]; exact rfl, by rw [h4]; exact rfl,
    by rw [h5]; exact rfl, by rw [h6]; exact rfl⟩

/-- **C5.** Every response written — through any request processing, the 500
path included, and through the wait-completion callback — carries exactly the
headers `Date`, `Server`, `Content-Length`, `Connection` in that order, with
`Content-Length` the exact byte length of the body and `Connection: close`. -/
theorem C5_response_headers (env : Env) (s : Sys) (evs : List H11Event)
    (o : FutureOutcome) (hs : writtenOk env s) :
    writtenOk env (data_received env s evs).1 ∧
    writtenOk env (on_get_done env s o).1 :=
  ⟨writtenOk_data_received env s evs hs, writtenOk_on_get_done env s o hs⟩

/-- Witness for C5: a fresh connection trivially satisfies the invariant, and
a concrete 404 run preserves it non-vacuously. -/
theorem C5_witness :
    writtenOk testEnv initSys ∧
    writtenOk testEnv (data_received testEnv initSys [.request .GET "/zzz"]).1 ∧
    (data_received testEnv initSys [.request .GET "/zzz"]).1.written =
      [respNotFound testEnv] := by
  have h0 : writtenOk testEnv initSys := fun r hr => nomatch hr
  exact ⟨h0,
    (C5_response_headers testEnv initSys [.request .GET "/zzz"] (.result true) h0).1,
    by exact rfl⟩

/-- **C9 counterexample.** The claim says a non-`WaitTimeout` failure of a
deferred wait results in a 500 response and the connection being closed.  At
the concrete outcome `raised other` on a fresh connection, the completion
callback writes nothing, closes nothing, and just propagates the error: the
callback runs from the event loop, outside the `try` of `data_received`, so
no 500 path is triggered. -/
theorem C9_cex :
    on_get_done testEnv initSys (.raised .other) = (initSys, some .other) ∧
    (on_get_done testEnv initSys (.raised .other)).1.written = [] ∧
    (on_get_done testEnv initSys (.raised .other)).1.closed = false := by
  exact ⟨rfl, rfl, rfl⟩

/-- **C9 (amended).** A deferred wait failing with any error other than
`WaitTimeout` propagates uncaught out of the completion callback, with no
response written and the transport untouched by this subsystem; the only
non-propagating outcomes are resolved-true (204), resolved-false (403) and
timeout (504), and the 500-and-close handling belongs solely to exceptions
raised during bytes-received processing. -/
theorem C9_unhandled_wait_error (env : Env) (s : Sys) (e : PyError)
    (he : ¬e = .waitTimeout) (hresp : s.conn.responded = false) :
    on_get_done env s (.raised e) = (s, some e) ∧
    (on_get_done env s (.result true)).2 = none ∧
    (on_get_done env s (.result false)).2 = none ∧
    (on_get_done env s (.raised .waitTimeout)).2 = none := by
  refine ⟨on_get_done_raised env s e he, ?_, ?_, ?_⟩
  · rw [on_get_done_true env s hresp]
  · rw [on_get_done_false env s hresp]
  · rw [on_get_done_timeout env s hresp]

/-- Witness for the amended C9: a `ValueError` outcome propagates unchanged. -/
theorem C9_witness :
    on_get_done testEnv initSys (.raised .valueError) =
      (initSys, some .valueError) :=
  (C9_unhandled_wait_error testEnv initSys .valueError (by decide) rfl).1

/-- **C10.** A GET whose target starts with `/messages-acknowledged/` but
whose trailing segment is not a decimal integer is not answered 404:
`int()` raises `ValueError`, so on a fresh connection the request takes the
connection-fatal path — the (here successful) 500 response attempt, the
transport close, and the re-raise of the error. -/
theorem C10_nonnumeric_tag (env : Env) (ts : String) (hts : pyInt ts = none) :
    data_received env initSys
        [.request .GET ("/messages-acknowledged/" ++ ts), .endOfMessage] =
      ({ initSys with
         conn :=
           { initConn with
             method := some .GET,
             target := some ("/messages-acknowledged/" ++ ts),
             responded := true },
         getCalls := ["/messages-acknowledged/" ++ ts],
         written := [resp500 env],
         closed := true }, some .valueError) ∧
    (∀ r ∈ (data_received env initSys
        [.request .GET ("/messages-acknowledged/" ++ ts), .endOfMessage]).1.written,
      ¬r.status = 404) ∧
    (resp500 env).status = 500 := by
  have hpe : processEvents env initSys
      [.request .GET ("/messages-acknowledged/" ++ ts), .endOfMessage] =
      ({ initSys with
         conn :=
           { initConn with
             method := some .GET,
             target := some ("/messages-acknowledged/" ++ ts) },
         getCalls := ["/messages-acknowledged/" ++ ts] }, some .valueError) := by
    apply processEvents_cons_some
    rw [processEvent_request_get env initSys ("/messages-acknowledged/" ++ ts) rfl,
      on_get_ack, hts]
    exact rfl
  have hmain : data_received env initSys
      [.request .GET ("/messages-acknowledged/" ++ ts), .endOfMessage] =
      ({ initSys with
         conn :=
           { initConn with
             method := some .GET,
             target := some ("/messages-acknowledged/" ++ ts),
             responded := true },
         getCalls := ["/messages-acknowledged/" ++ ts],
         written := [resp500 env],
         closed := true }, some .valueError) := by
    rw [data_received_of_error env initSys _ _ .valueError hpe,
      data_received_error_not_responded env _ .valueError rfl]
    exact rfl
  have hw : (data_received env initSys
      [.request .GET ("/messages-acknowledged/" ++ ts), .endOfMessage]).1.written =
      [resp500 env] := by rw [hmain]
  refine ⟨hmain, ?_, rfl⟩
  intro r hr h404
  rw [hw, List.mem_singleton] at hr
  subst hr
  simp [resp500, respWithBody] at h404

/-- Witness for C10 at the segment `abc`. -/
theorem C10_witness :
    (data_received testEnv initSys
        [.request .GET ("/messages-acknowledged/" ++ "abc"), .endOfMessage]).1.closed
      = true ∧
    (data_received testEnv initSys
        [.request .GET ("/messages-acknowledged/" ++ "abc"), .endOfMessage]).2
      = some .valueError ∧
    (data_received testEnv initSys
        [.request .GET ("/messages-acknowledged/" ++ "abc"), .endOfMessage]).1.written
      = [resp500 testEnv] := by
  have h := C10_nonnumeric_tag testEnv "abc" (by decide)
  exact ⟨by rw [h.1], by rw [h.1], by rw [h.1]⟩

/-- **C6.** An end-of-message event, in any phase, resets the phase to
awaiting-headers and clears the stored method and target, whether or not a
handler already ran; no other event processing brings the phase back to
awaiting-headers; a GET or DELETE header-complete event dispatches to its
handler without changing the phase; a POST or PUT header-complete event moves
the phase to awaiting-body. -/
theorem C6_phase_machine (env : Env) (s : Sys) (ev : H11Event) (t : String) :
    (processEvent env s .endOfMessage =
      ({ s with
         conn :=
           { s.conn with
             state := RequestState.waitingHeaders, method := none,
             target := none } },
       none)) ∧
    (s.conn.state = RequestState.waitingBody →
      ((processEvent env s ev).1).conn.state = RequestState.waitingHeaders →
      ev = .endOfMessage) ∧
    (s.conn.state = RequestState.waitingHeaders →
      ((processEvent env s (.request .GET t)).1).conn.state = s.conn.state ∧
      ((processEvent env s (.request .GET t)).1).getCalls = s.getCalls ++ [t] ∧
      ((processEvent env s (.request .DELETE t)).1).conn.state = s.conn.state ∧
      ((processEvent env s (.request .DELETE t)).1).deleteCalls
        = s.deleteCalls ++ [t] ∧
      ((processEvent env s (.request .POST t)).1).conn.state
        = RequestState.waitingBody ∧
      ((processEvent env s (.request .PUT t)).1).conn.state
        = RequestState.waitingBody) := by
  refine ⟨rfl, ?_, ?_⟩
  · intro hb hw
    cases ev with
    | request m t' =>
      rw [processEvent_request_body_state env s m t' hb, hb] at hw
      exact nomatch hw
    | data c =>
      rw [processEvent_data_conn_state env s c, hb] at hw
      exact nomatch hw
    | endOfMessage => rfl
    | parseError =>
      rw [show ((processEvent env s .parseError).1).conn.state = s.conn.state
          from rfl, hb] at hw
      exact nomatch hw
  · intro hh
    refine ⟨?_, ?_, ?_, ?_, ?_, ?_⟩
    · rw [processEvent_request_get env s t hh]
      exact on_get_conn_state env _ t
    · rw [processEvent_request_get env s t hh]
      exact on_get_getCalls env _ t
    · rw [processEvent_request_delete env s t hh]
      exact on_delete_conn_state env _ t
    · rw [processEvent_request_delete env s t hh]
      exact on_delete_deleteCalls env _ t
    · rw [processEvent_request_post env s t hh]
    · rw [processEvent_request_put env s t hh]

/-- Witness for C6: concrete phase transitions from a fresh connection and
from a mid-body state. -/
theorem C6_witness :
    (processEvent testEnv initSys (.request .POST "/x")).1.conn.state
      = RequestState.waitingBody ∧
    ((processEvent testEnv
        { initSys with
          conn :=
            { initConn with
              state := RequestState.waitingBody, method := some .POST,
              target := some "/x" } }
        .endOfMessage).1).conn.state = RequestState.waitingHeaders := by
  have h1 := (C6_phase_machine testEnv initSys (.request .POST "/x") "/x").2.2 rfl
  have h2 := (C6_phase_machine testEnv
    { initSys with
      conn :=
        { initConn with
          state := RequestState.waitingBody, method := some .POST,
          target := some "/x" } }
    .endOfMessage "/x").1
  exact ⟨h1.2.2.2.2.1, by rw [h2]⟩

theorem h11SendResponse_postCalls (s : Sys) (r : Response) :
    ((h11SendResponse s r).1).postCalls = s.postCalls := by
  unfold h11SendResponse
  split <;> rfl

theorem on_post_postCalls (env : Env) (s : Sys) (t : String) (b : Bytes) :
    ((on_post env s t b).1).postCalls = s.postCalls ++ [(t, b)] := by
  rw [on_post]
  repeat' split
  all_goals
    first
      | rfl
      | exact h11SendResponse_postCalls _ _

/-- Evaluation of `_on_post` on an `/add-message-on/` target once the JSON
body has decoded to an object with a `headers` field and a string `body`
field: the message is recorded as published and the result depends only on
what `publish_message` returns. -/
theorem on_post_publish (env : Env) (s : Sys) (ex : String) (b : Bytes)
    (msg hdrs : Json) (bodyStr : String)
    (hload : env.jsonLoads b = some msg)
    (hh : msg.getItem "headers" = some hdrs)
    (hb : msg.getItem "body" = some (.str bodyStr)) :
    on_post env s ("/add-message-on/" ++ ex) b =
      (match env.publish_message ex hdrs (bytes bodyStr) with
       | none =>
         send_http_response_not_found env
           { s with postCalls := s.postCalls ++ [("/add-message-on/" ++ ex, b)],
                    published := s.published ++ [(ex, hdrs, bytes bodyStr)] }
       | some tag =>
         send_http_response_ok env
           { s with postCalls := s.postCalls ++ [("/add-message-on/" ++ ex, b)],
                    published := s.published ++ [(ex, hdrs, bytes bodyStr)] }
           (bytes (toString tag))) := by
  rw [on_post_add_message env s ex b]
  simp only [hload, hh, hb]

/-- **C7.** A POST to `/add-message-on/{exchange}` whose body is a JSON
object with `headers` and a string `body` publishes the message to the named
exchange; if `publish_message` returns the absent-marker the single response
is the 404 one, otherwise it is a 200 whose body is the delivery tag in
decimal followed by a trailing newline. -/
theorem C7_add_message (env : Env) (s : Sys) (ex : String) (b : Bytes)
    (msg hdrs : Json) (bodyStr : String) (k : Int)
    (hresp : s.conn.responded = false)
    (hload : env.jsonLoads b = some msg)
    (hh : msg.getItem "headers" = some hdrs)
    (hb : msg.getItem "body" = some (.str bodyStr)) :
    (env.publish_message ex hdrs (bytes bodyStr) = none →
      on_post env s ("/add-message-on/" ++ ex) b =
        ({ s with
           postCalls := s.postCalls ++ [("/add-message-on/" ++ ex, b)],
           published := s.published ++ [(ex, hdrs, bytes bodyStr)],
           conn := { s.conn with responded := true },
           written := s.written ++ [respNotFound env] }, none)) ∧
    (env.publish_message ex hdrs (bytes bodyStr) = some k →
      on_post env s ("/add-message-on/" ++ ex) b =
        ({ s with
           postCalls := s.postCalls ++ [("/add-message-on/" ++ ex, b)],
           published := s.published ++ [(ex, hdrs, bytes bodyStr)],
           conn := { s.conn with responded := true },
           written := s.written ++ [respOk env (bytes (toString k))] }, none)) ∧
    (respNotFound env).status = 404 ∧
    (respOk env (bytes (toString k))).status = 200 ∧
    (respOk env (bytes (toString k))).body = bytes (toString k) ++ bytes "\n" := by
  refine ⟨?_, ?_, rfl, rfl, rfl⟩
  · intro hp
    rw [on_post_publish env s ex b msg hdrs bodyStr hload hh hb]
    simp only [hp]
    exact send_with_body_eq env _ 404 (bytes "not found\n") hresp
  · intro hp
    rw [on_post_publish env s ex b msg hdrs bodyStr hload hh hb]
    simp only [hp]
    exact send_with_body_eq env _ 200 (bytes (toString k) ++ bytes "\n") hresp

/-- Witness for C7: publishing `{"headers": {}, "body": "hi"}` to the
existing exchange `E` yields delivery tag 7 and a 200 response with body
`7\n`; an absent exchange would give 404 by the same theorem. -/
theorem C7_witness :
    ((on_post testEnv initSys ("/add-message-on/" ++ "E") (bytes "M")).1).written
      = [respOk testEnv (bytes (toString (7 : Int)))] ∧
    ((on_post testEnv initSys ("/add-message-on/" ++ "E") (bytes "M")).1).published
      = [("E", Json.obj [], bytes "hi")] ∧
    (on_post testEnv initSys ("/add-message-on/" ++ "E") (bytes "M")).2 = none := by
  have h := (C7_add_message testEnv initSys "E" (bytes "M")
    (Json.obj [("headers", Json.obj []), ("body", Json.str "hi")])
    (Json.obj []) "hi" 7 rfl rfl rfl rfl).2.1 rfl
  exact ⟨by rw [h]; exact rfl, by rw [h]; exact rfl, by rw [h]⟩

/-- **C8 counterexample.** The claim says every PUT request, including one
with an empty body, is answered 404.  A PUT with an empty body yields no
body-chunk event, so `_on_put` never runs and no response at all is written:
the run ends back in the initial state with no error. -/
theorem C8_cex :
    data_received testEnv initSys [.request .PUT "/x", .endOfMessage]
      = (initSys, none) ∧
    (data_received testEnv initSys [.request .PUT "/x", .endOfMessage]).1.written
      = [] ∧
    (data_received testEnv initSys [.request .PUT "/x", .endOfMessage]).1.putCalls
      = [] :=
  ⟨rfl, rfl, rfl⟩

/-- **C8 (amended).** A PUT request whose body arrives as a body-chunk event
is answered 404 on that chunk, for every target and body, and performs no
collaborator operation (nothing published or deleted, no wait registered); a
PUT whose body produces no body-chunk event (e.g. an empty body) is never
answered at all. -/
theorem C8_put_not_found (env : Env) (t : String) (b : Bytes) :
    data_received env initSys [.request .PUT t, .data b, .endOfMessage] =
      ({ initSys with
         conn := { initConn with responded := true },
         written := [respNotFound env],
         putCalls := [(t, b)] }, none) ∧
    data_received env initSys [.request .PUT t, .endOfMessage]
      = (initSys, none) ∧
    (respNotFound env).status = 404 :=
  ⟨rfl, rfl, rfl⟩

/-- **C2 counterexample.** The claim says the POST handler runs at most once
per request, only after the body is complete, with the whole body as one
buffer.  When the body of a single POST request arrives as two body-chunk
events (here both chunks decode as valid publishes), the handler runs twice,
each time with only that chunk — never with the assembled body. -/
theorem C2_cex :
    ((data_received testEnv initSys
        [.request .POST "/add-message-on/E", .data (bytes "M"),
         .data (bytes "M"), .endOfMessage]).1).postCalls =
      [("/add-message-on/E", bytes "M"), ("/add-message-on/E", bytes "M")] ∧
    ((data_received testEnv initSys
        [.request .POST "/add-message-on/E", .data (bytes "M"),
         .data (bytes "M"), .endOfMessage]).1).written.length = 1 :=
  ⟨rfl, rfl⟩

/-- **C2 (amended).** The POST handler is dispatched once per body-chunk
event, receiving exactly that chunk's bytes — not once per request with an
assembled body.  In particular, when the whole body arrives as a single chunk
the handler runs exactly once, after the header event, with the whole body. -/
theorem C2_post_per_chunk (env : Env) (t : String) (b : Bytes) :
    ((processEvents env initSys
        [.request .POST t, .data b, .endOfMessage]).1).postCalls = [(t, b)] := by
  rw [processEvents_cons_none env initSys _ _ _
    (processEvent_request_post env initSys t rfl)]
  set S1 : Sys :=
    { initSys with
      conn :=
        { initSys.conn with
          state := RequestState.waitingBody, method := some HMethod.POST,
          target := some t } }
  have h2 : processEvent env S1 (.data b) = on_post env S1 t b :=
    processEvent_data_post env S1 t b rfl rfl rfl
  have hpc := on_post_postCalls env S1 t b
  rcases ho : on_post env S1 t b with ⟨s', e?⟩
  rw [ho] at hpc
  cases e? with
  | some e =>
    rw [processEvents_cons_some env S1 s' _ _ e (h2.trans ho)]
    exact hpc.trans rfl
  | none =>
    rw [processEvents_cons_none env S1 s' _ _ (h2.trans ho)]
    rw [processEvents_cons_none env s' _ _ _ rfl]
    exact hpc.trans rfl

/-- **C4 counterexample.** The claim says the bytes-received handler closes
the transport even when emitting the 500 itself fails, and re-raises the
original failure.  In a batch where a first request was already answered
(h11 refuses a second response) and a later event raises `ValueError`, the
500 attempt raises `LocalProtocolError`; the `transport.close()` line is
never reached (the transport stays open) and the propagated exception is the
`LocalProtocolError`, not the original `ValueError`. -/
theorem C4_cex :
    (processEvents testEnv initSys
        [.request .GET "/messages-in-queue/q", .endOfMessage,
         .request .GET "/messages-acknowledged/abc", .endOfMessage]).2 =
      some .valueError ∧
    ((data_received testEnv initSys
        [.request .GET "/messages-in-queue/q", .endOfMessage,
         .request .GET "/messages-acknowledged/abc", .endOfMessage]).1).closed =
      false ∧
    (data_received testEnv initSys
        [.request .GET "/messages-in-queue/q", .endOfMessage,
         .request .GET "/messages-acknowledged/abc", .endOfMessage]).2 =
      some .localProtocolError ∧
    ((data_received testEnv initSys
        [.request .GET "/messages-in-queue/q", .endOfMessage,
         .request .GET "/messages-acknowledged/abc", .endOfMessage]).1).written.length
      = 1 :=
  ⟨rfl, rfl, rfl, rfl⟩

/-- **C4 (amended).** Any exception raised while processing received events
is caught exactly once at the top of the bytes-received handler and triggers
a 500 response attempt.  If the 500 send succeeds (no response had been sent
yet on the connection), the transport is closed and the original exception is
re-raised.  If the 500 send itself raises (a response was already sent), the
close is never reached — the transport is left open by the handler — and the
send's `LocalProtocolError` propagates instead of the original exception. -/
theorem C4_exception_path (env : Env) (s : Sys) (evs : List H11Event)
    (e : PyError) (h : (processEvents env s evs).2 = some e) :
    ((processEvents env s evs).1.conn.responded = false →
      data_received env s evs =
        ({ (processEvents env s evs).1 with
           conn := { (processEvents env s evs).1.conn with responded := true },
           written := (processEvents env s evs).1.written ++ [resp500 env],
           closed := true }, some e)) ∧
    ((processEvents env s evs).1.conn.responded = true →
      data_received env s evs =
        ((processEvents env s evs).1, some .localProtocolError)) := by
  rcases hpe : processEvents env s evs with ⟨s1, e?⟩
  rw [hpe] at h
  replace h : e? = some e := h
  subst h
  constructor
  · intro hr
    replace hr : s1.conn.responded = false := hr
    rw [data_received_of_error env s s1 evs e hpe,
      data_received_error_not_responded env s1 e hr]
  · intro hr
    replace hr : s1.conn.responded = true := hr
    rw [data_received_of_error env s s1 evs e hpe,
      data_received_error_responded env s1 e hr]

/-- Witness for the amended C4: a fresh connection and a nonnumeric
acknowledgment tag — the 500 attempt succeeds, the transport is closed, and
the original `ValueError` is re-raised. -/
theorem C4_witness :
    (data_received testEnv initSys
        [.request .GET "/messages-acknowledged/abc"]).2 = some .valueError ∧
    ((data_received testEnv initSys
        [.request .GET "/messages-acknowledged/abc"]).1).closed = true := by
  have h := (C4_exception_path testEnv initSys
    [.request .GET "/messages-acknowledged/abc"] .valueError rfl).1 rfl
  exact ⟨by rw [h], by rw [h]⟩

/-- **C3 counterexample.** The claim says every complete parseable request —
any method, any body, an empty body included — causes exactly one response to
be written, never zero.  A POST with an empty body yields no body-chunk
event, so its handler never runs and zero responses are written: the run ends
back in the initial state with no error. -/
theorem C3_cex :
    data_received testEnv initSys
        [.request .POST "/add-message-on/E", .endOfMessage] = (initSys, none) ∧
    (data_received testEnv initSys
        [.request .POST "/add-message-on/E", .endOfMessage]).1.written = [] :=
  ⟨rfl, rfl⟩

/-! ### At most one response per connection -/

/-- Relation between two observable states: either nothing was written and
the h11 `responded` flag is unchanged, or exactly one response was written,
flipping the flag from `false` to `true`.  Every write goes through
`h11SendResponse`, which refuses to send once `responded` is set (the code
never starts a new h11 cycle), so no execution writes a second response on a
connection. -/
def atMostOneWrite (s s' : Sys) : Prop :=
  (s'.written = s.written ∧ s'.conn.responded = s.conn.responded) ∨
  (∃ r, s'.written = s.written ++ [r] ∧ s'.conn.responded = true ∧
    s.conn.responded = false)

theorem atMostOneWrite_refl (s : Sys) : atMostOneWrite s s := Or.inl ⟨rfl, rfl⟩

/-- The relation only looks at `written` and `conn.responded`, so its base
state may be replaced by any state agreeing on those two fields. -/
theorem atMostOneWrite_castBase (s s0 X : Sys) (h : atMostOneWrite s X)
    (hw : s.written = s0.written)
    (hr : s.conn.responded = s0.conn.responded) : atMostOneWrite s0 X := by
  rcases h with ⟨h1, h2⟩ | ⟨r, h1, h2, h3⟩
  · exact Or.inl ⟨h1.trans hw, h2.trans hr⟩
  · exact Or.inr ⟨r, by rw [h1, hw], h2, by rw [← hr]; exact h3⟩

theorem atMostOneWrite_trans (s1 s2 s3 : Sys) (h12 : atMostOneWrite s1 s2)
    (h23 : atMostOneWrite s2 s3) : atMostOneWrite s1 s3 := by
  rcases h12 with ⟨hw, hr⟩ | ⟨r, hw, hr, hr0⟩
  · rcases h23 with ⟨hw', hr'⟩ | ⟨r', hw', hr', hr0'⟩
    · exact Or.inl ⟨hw'.trans hw, hr'.trans hr⟩
    · exact Or.inr ⟨r', by rw [hw', hw], hr', by rw [← hr]; exact hr0'⟩
  · rcases h23 with ⟨hw', hr'⟩ | ⟨r', hw', hr', hr0'⟩
    · exact Or.inr ⟨r, hw'.trans hw, hr'.trans hr, hr0⟩
    · rw [hr] at hr0'
      exact absurd hr0' (by simp)

theorem h11SendResponse_atMostOne (s : Sys) (r : Response) :
    atMostOneWrite s (h11SendResponse s r).1 := by
  unfold h11SendResponse
  split
  · exact atMostOneWrite_refl s
  · next h =>
    refine Or.inr ⟨r, rfl, rfl, ?_⟩
    simpa using h

theorem boundRoute_atMostOne (s : Sys) (t : String) :
    atMostOneWrite s (boundRoute s t).1 := by
  rw [boundRoute]
  split <;> exact Or.inl ⟨rfl, rfl⟩

theorem on_get_atMostOne (env : Env) (s : Sys) (t : String) :
    atMostOneWrite s (on_get env s t).1 := by
  rw [on_get]
  repeat' split
  all_goals
    first
      | exact Or.inl ⟨rfl, rfl⟩
      | exact atMostOneWrite_castBase _ _ _ (h11SendResponse_atMostOne _ _) rfl rfl
      | exact atMostOneWrite_castBase _ _ _ (boundRoute_atMostOne _ _) rfl rfl

theorem on_post_atMostOne (env : Env) (s : Sys) (t : String) (b : Bytes) :
    atMostOneWrite s (on_post env s t b).1 := by
  rw [on_post]
  repeat' split
  all_goals
    first
      | exact Or.inl ⟨rfl, rfl⟩
      | exact atMostOneWrite_castBase _ _ _ (h11SendResponse_atMostOne _ _) rfl rfl

theorem on_delete_atMostOne (env : Env) (s : Sys) (t : String) :
    atMostOneWrite s (on_delete env s t).1 := by
  rw [on_delete]
  repeat' split
  all_goals
    first
      | exact Or.inl ⟨rfl, rfl⟩
      | exact atMostOneWrite_castBase _ _ _ (h11SendResponse_atMostOne _ _) rfl rfl

theorem on_put_atMostOne (env : Env) (s : Sys) (t : String) (b : Bytes) :
    atMostOneWrite s (on_put env s t b).1 := by
  rw [on_put]
  exact atMostOneWrite_castBase _ _ _ (h11SendResponse_atMostOne _ _) rfl rfl

theorem on_get_done_atMostOne (env : Env) (s : Sys) (o : FutureOutcome) :
    atMostOneWrite s (on_get_done env s o).1 := by
  cases o with
  | result b =>
    cases b with
    | true => exact h11SendResponse_atMostOne s _
    | false => exact h11SendResponse_atMostOne s _
  | raised e =>
    rw [on_get_done]
    split
    · exact h11SendResponse_atMostOne s _
    · exact atMostOneWrite_refl s

theorem processEvent_atMostOne (env : Env) (s : Sys) (ev : H11Event) :
    atMostOneWrite s (processEvent env s ev).1 := by
  cases ev with
  | parseError => exact atMostOneWrite_refl s
  | endOfMessage => exact Or.inl ⟨rfl, rfl⟩
  | request m t =>
    rw [processEvent]
    repeat' split
    all_goals
      first
        | exact Or.inl ⟨rfl, rfl⟩
        | exact atMostOneWrite_castBase _ _ _ (on_get_atMostOne env _ t) rfl rfl
        | exact atMostOneWrite_castBase _ _ _ (on_delete_atMostOne env _ t) rfl rfl
  | data c =>
    rw [processEvent]
    repeat' split
    all_goals
      first
        | exact Or.inl ⟨rfl, rfl⟩
        | exact atMostOneWrite_castBase _ _ _ (on_post_atMostOne env _ _ c) rfl rfl
        | exact atMostOneWrite_castBase _ _ _ (on_put_atMostOne env _ _ c) rfl rfl

theorem processEvents_atMostOne (env : Env) (s : Sys) (evs : List H11Event) :
    atMostOneWrite s (processEvents env s evs).1 := by
  induction evs generalizing s with
  | nil => exact atMostOneWrite_refl s
  | cons ev evs ih =>
    rw [processEvents]
    have h1 := processEvent_atMostOne env s ev
    rcases h : processEvent env s ev with ⟨s', e?⟩
    rw [h] at h1
    cases e? with
    | none => exact atMostOneWrite_trans _ _ _ h1 (ih s')
    | some e => exact h1

theorem data_received_error_atMostOne (env : Env) (s1 : Sys) (e : PyError) :
    atMostOneWrite s1 (data_received_error env s1 e).1 := by
  rw [data_received_error]
  unfold send_http_internal_server_error send_http_response_with_body
  have h2 := h11SendResponse_atMostOne s1
    (respWithBody env 500 (bytes "internal server error\n"))
  rcases h' : h11SendResponse s1
      (respWithBody env 500 (bytes "internal server error\n"))
    with ⟨s2, e2?⟩
  rw [h'] at h2
  cases e2? with
  | none => exact h2
  | some e2 => exact h2

theorem data_received_atMostOne (env : Env) (s : Sys) (evs : List H11Event) :
    atMostOneWrite s (data_received env s evs).1 := by
  have h1 := processEvents_atMostOne env s evs
  rcases h : processEvents env s evs with ⟨s1, e?⟩
  rw [h] at h1
  cases e? with
  | none =>
    rw [data_received_of_ok env s s1 evs h]
    exact h1
  | some e =>
    rw [data_received_of_error env s s1 evs e h]
    exact atMostOneWrite_trans _ _ _ h1 (data_received_error_atMostOne env s1 e)

/-! ### Complete single-request runs -/

/-- A complete request whose header event succeeds without error and is
followed directly by end-of-message. -/
theorem data_received_two_events (env : Env) (s1 : Sys) (ev : H11Event)
    (h : processEvent env initSys ev = (s1, none)) :
    data_received env initSys [ev, .endOfMessage] =
      ({ s1 with
         conn :=
           { s1.conn with
             state := RequestState.waitingHeaders, method := none,
             target := none } },
       none) := by
  apply data_received_of_ok
  rw [processEvents_cons_none env initSys s1 ev _ h]
  exact rfl

/-- A complete request with one error-free body-chunk event. -/
theorem data_received_three_events (env : Env) (s1 s2 : Sys)
    (ev1 ev2 : H11Event)
    (h1 : processEvent env initSys ev1 = (s1, none))
    (h2 : processEvent env s1 ev2 = (s2, none)) :
    data_received env initSys [ev1, ev2, .endOfMessage] =
      ({ s2 with
         conn :=
           { s2.conn with
             state := RequestState.waitingHeaders, method := none,
             target := none } },
       none) := by
  apply data_received_of_ok
  rw [processEvents_cons_none env initSys s1 ev1 _ h1,
    processEvents_cons_none env s1 s2 ev2 _ h2]
  exact rfl

/-- A complete request whose body-chunk event raises, on a connection that
has not responded yet: the except block appends the one 500 response, closes
the transport and re-raises. -/
theorem data_received_three_events_error (env : Env) (s1 s2 : Sys)
    (ev1 ev2 : H11Event) (e : PyError)
    (h1 : processEvent env initSys ev1 = (s1, none))
    (h2 : processEvent env s1 ev2 = (s2, some e))
    (h3 : s2.conn.responded = false) :
    data_received env initSys [ev1, ev2, .endOfMessage] =
      ({ s2 with
         conn := { s2.conn with responded := true },
         written := s2.written ++ [resp500 env],
         closed := true },
       some e) := by
  rw [data_received_of_error env initSys s2 _ e
      (by
        rw [processEvents_cons_none env initSys s1 ev1 _ h1]
        exact processEvents_cons_some env s1 s2 ev2 _ e h2),
    data_received_error_not_responded env s2 e h3]

/-- `_on_post` on a target outside `/add-message-on/`: unconditional 404
attempt. -/
theorem on_post_other (env : Env) (s : Sys) (t : String) (b : Bytes)
    (h : startswith t "/add-message-on/" = false) :
    on_post env s t b =
      send_http_response_not_found env
        { s with postCalls := s.postCalls ++ [(t, b)] } := by
  rw [on_post]
  simp [h]

/-- **C3 (amended).** At most one response is ever written on a connection
(never more than one, over any event batch and any wait-callback outcome:
each successful send flips the h11 `responded` flag and any further send
raises).  A complete single request on a fresh connection is answered by
exactly one response in each dispatched case — an unknown GET target (404), a
`/messages-in-queue/` GET (200 or 404), a DELETE of a queue (204), a PUT or
POST whose body arrives in one chunk (404; for an `/add-message-on/` POST
the handler's 200/404 when the body decodes to a suitable JSON object, and
the except block's best-effort 500 when JSON decoding fails) — while POST
and PUT requests whose body produces no body-chunk event (e.g. an empty
body) dispatch no handler and are answered by zero responses. -/
theorem C3_at_most_one_response (env : Env) (s : Sys) (evs : List H11Event)
    (o : FutureOutcome) (t q ex : String) (b : Bytes) (mj msg hdrs : Json)
    (bodyStr : String) (k : Int)
    (hg1 : startswith t "/authentification-done-with-success-on/" = false)
    (hg2 : startswith t "/messages-acknowledged/" = false)
    (hg3 : startswith t "/messages-in-queue/" = false)
    (hg4 : startswith t "/messages-in-exchange/" = false)
    (hg5 : startswith t "/queue-bound-to-exchange/" = false)
    (hnp : startswith t "/add-message-on/" = false) :
    atMostOneWrite s (data_received env s evs).1 ∧
    atMostOneWrite s (on_get_done env s o).1 ∧
    (data_received env initSys [.request .POST t, .endOfMessage]
      = (initSys, none)) ∧
    (data_received env initSys [.request .PUT t, .endOfMessage]
      = (initSys, none)) ∧
    (data_received env initSys [.request .GET t, .endOfMessage] =
      ({ initSys with
         conn := { initConn with responded := true },
         getCalls := [t],
         written := [respNotFound env] }, none)) ∧
    (env.get_messages_of_queue q = some mj →
      data_received env initSys
          [.request .GET ("/messages-in-queue/" ++ q), .endOfMessage] =
        ({ initSys with
           conn := { initConn with responded := true },
           getCalls := ["/messages-in-queue/" ++ q],
           written := [respOk env (env.jsonDumps mj)] }, none)) ∧
    (env.get_messages_of_queue q = none →
      data_received env initSys
          [.request .GET ("/messages-in-queue/" ++ q), .endOfMessage] =
        ({ initSys with
           conn := { initConn with responded := true },
           getCalls := ["/messages-in-queue/" ++ q],
           written := [respNotFound env] }, none)) ∧
    (data_received env initSys
        [.request .DELETE ("/messages-in-queue/" ++ q), .endOfMessage] =
      ({ initSys with
         conn := { initConn with responded := true },
         deleteCalls := ["/messages-in-queue/" ++ q],
         deleted := [q],
         written := [respNoContent env] }, none)) ∧
    (data_received env initSys [.request .PUT t, .data b, .endOfMessage] =
      ({ initSys with
         conn := { initConn with responded := true },
         written := [respNotFound env],
         putCalls := [(t, b)] }, none)) ∧
    (data_received env initSys [.request .POST t, .data b, .endOfMessage] =
      ({ initSys with
         conn := { initConn with responded := true },
         postCalls := [(t, b)],
         written := [respNotFound env] }, none)) ∧
    (env.jsonLoads b = some msg →
      msg.getItem "headers" = some hdrs →
      msg.getItem "body" = some (.str bodyStr) →
      (env.publish_message ex hdrs (bytes bodyStr) = some k →
        data_received env initSys
            [.request .POST ("/add-message-on/" ++ ex), .data b,
             .endOfMessage] =
          ({ initSys with
             conn := { initConn with responded := true },
             postCalls := [("/add-message-on/" ++ ex, b)],
             published := [(ex, hdrs, bytes bodyStr)],
             written := [respOk env (bytes (toString k))] }, none)) ∧
      (env.publish_message ex hdrs (bytes bodyStr) = none →
        data_received env initSys
            [.request .POST ("/add-message-on/" ++ ex), .data b,
             .endOfMessage] =
          ({ initSys with
             conn := { initConn with responded := true },
             postCalls := [("/add-message-on/" ++ ex, b)],
             published := [(ex, hdrs, bytes bodyStr)],
             written := [respNotFound env] }, none))) ∧
    (env.jsonLoads b = none →
      data_received env initSys
          [.request .POST ("/add-message-on/" ++ ex), .data b,
           .endOfMessage] =
        ({ initSys with
           conn :=
             { initConn with
               state := RequestState.waitingBody, method := some .POST,
               target := some ("/add-message-on/" ++ ex),
               responded := true },
           postCalls := [("/add-message-on/" ++ ex, b)],
           written := [resp500 env],
           closed := true }, some .jsonDecodeError)) := by
  refine ⟨data_received_atMostOne env s evs, on_get_done_atMostOne env s o,
    rfl, rfl, ?_, ?_, ?_, ?_, rfl, ?_, ?_, ?_⟩
  · have hE : processEvent env initSys (.request .GET t) =
        ({ initSys with
           conn :=
             { initConn with
               method := some .GET, target := some t, responded := true },
           getCalls := [t],
           written := [respNotFound env] }, none) := by
      rw [processEvent_request_get env initSys t rfl,
        on_get_not_found env _ t hg1 hg2 hg3 hg4 hg5]
      exact rfl
    exact (data_received_two_events env _ _ hE).trans rfl
  · intro hmj
    have hF : processEvent env initSys
          (.request .GET ("/messages-in-queue/" ++ q)) =
        ({ initSys with
           conn :=
             { initConn with
               method := some .GET,
               target := some ("/messages-in-queue/" ++ q),
               responded := true },
           getCalls := ["/messages-in-queue/" ++ q],
           written := [respOk env (env.jsonDumps mj)] }, none) := by
      rw [processEvent_request_get env initSys _ rfl, on_get_queue env _ q]
      simp only [hmj]
      exact rfl
    exact (data_received_two_events env _ _ hF).trans rfl
  · intro hmj
    have hG : processEvent env initSys
          (.request .GET ("/messages-in-queue/" ++ q)) =
        ({ initSys with
           conn :=
             { initConn with
               method := some .GET,
               target := some ("/messages-in-queue/" ++ q),
               responded := true },
           getCalls := ["/messages-in-queue/" ++ q],
           written := [respNotFound env] }, none) := by
      rw [processEvent_request_get env initSys _ rfl, on_get_queue env _ q]
      simp only [hmj]
      exact rfl
    exact (data_received_two_events env _ _ hG).trans rfl
  · have hH : processEvent env initSys
          (.request .DELETE ("/messages-in-queue/" ++ q)) =
        ({ initSys with
           conn :=
             { initConn with
               method := some .DELETE,
               target := some ("/messages-in-queue/" ++ q),
               responded := true },
           deleteCalls := ["/messages-in-queue/" ++ q],
           deleted := [q],
           written := [respNoContent env] }, none) := by
      rw [processEvent_request_delete env initSys _ rfl, on_delete_queue env _ q]
      exact rfl
    exact (data_received_two_events env _ _ hH).trans rfl
  · have hJ1 := processEvent_request_post env initSys t rfl
    have hJ2 : processEvent env
          { initSys with
            conn :=
              { initSys.conn with
                state := RequestState.waitingBody, method := some .POST,
                target := some t } }
          (.data b) =
        ({ initSys with
           conn :=
             { initConn with
               state := RequestState.waitingBody, method := some .POST,
               target := some t, responded := true },
           postCalls := [(t, b)],
           written := [respNotFound env] }, none) := by
      rw [processEvent_data_post env _ t b rfl rfl rfl, on_post_other env _ t b hnp]
      exact rfl
    exact (data_received_three_events env _ _ _ _ hJ1 hJ2).trans rfl
  · intro hload hh hb
    have hK1 := processEvent_request_post env initSys ("/add-message-on/" ++ ex) rfl
    constructor
    · intro hpub
      have hK2 : processEvent env
            { initSys with
              conn :=
                { initSys.conn with
                  state := RequestState.waitingBody, method := some .POST,
                  target := some ("/add-message-on/" ++ ex) } }
            (.data b) =
          ({ initSys with
             conn :=
               { initConn with
                 state := RequestState.waitingBody, method := some .POST,
                 target := some ("/add-message-on/" ++ ex),
                 responded := true },
             postCalls := [("/add-message-on/" ++ ex, b)],
             published := [(ex, hdrs, bytes bodyStr)],
             written := [respOk env (bytes (toString k))] }, none) := by
        rw [processEvent_data_post env _ _ b rfl rfl rfl,
          on_post_publish env _ ex b msg hdrs bodyStr hload hh hb]
        simp only [hpub]
        exact rfl
      exact (data_received_three_events env _ _ _ _ hK1 hK2).trans rfl
    · intro hpub
      have hL2 : processEvent env
            { initSys with
              conn :=
                { initSys.conn with
                  state := RequestState.waitingBody, method := some .POST,
                  target := some ("/add-message-on/" ++ ex) } }
            (.data b) =
          ({ initSys with
             conn :=
               { initConn with
                 state := RequestState.waitingBody, method := some .POST,
                 target := some ("/add-message-on/" ++ ex),
                 responded := true },
             postCalls := [("/add-message-on/" ++ ex, b)],
             published := [(ex, hdrs, bytes bodyStr)],
             written := [respNotFound env] }, none) := by
        rw [processEvent_data_post env _ _ b rfl rfl rfl,
          on_post_publish env _ ex b msg hdrs bodyStr hload hh hb]
        simp only [hpub]
        exact rfl
      exact (data_received_three_events env _ _ _ _ hK1 hL2).trans rfl
  · intro hjson
    have hM1 := processEvent_request_post env initSys ("/add-message-on/" ++ ex) rfl
    have hM2 : processEvent env
          { initSys with
            conn :=
              { initSys.conn with
                state := RequestState.waitingBody, method := some .POST,
                target := some ("/add-message-on/" ++ ex) } }
          (.data b) =
        ({ initSys with
           conn :=
             { initConn with
               state := RequestState.waitingBody, method := some .POST,
               target := some ("/add-message-on/" ++ ex) },
           postCalls := [("/add-message-on/" ++ ex, b)] },
         some .jsonDecodeError) := by
      rw [processEvent_data_post env _ _ b rfl rfl rfl,
        on_post_add_message env _ ex b]
      simp only [hjson]
      exact rfl
    exact (data_received_three_events_error env _ _ _ _ _ hM1 hM2 rfl).trans rfl

/-- Witness for the amended C3 at concrete inputs: an unknown GET answered
by one 404, an `/add-message-on/E` POST with decodable body answered by one
200, and the same POST with an undecodable body answered by the except
block's single 500 with the transport closed. -/
theorem C3_at_most_one_witness :
    (data_received testEnv initSys
        [.request .GET "/zzz", .endOfMessage]).1.written
      = [respNotFound testEnv] ∧
    (data_received testEnv initSys
        [.request .POST ("/add-message-on/" ++ "E"), .data (bytes "M"),
         .endOfMessage]).1.written
      = [respOk testEnv (bytes (toString (7 : Int)))] ∧
    (data_received testEnv initSys
        [.request .POST ("/add-message-on/" ++ "E"), .data (bytes "J"),
         .endOfMessage]).1.written = [resp500 testEnv] ∧
    (data_received testEnv initSys
        [.request .POST ("/add-message-on/" ++ "E"), .data (bytes "J"),
         .endOfMessage]).1.closed = true := by
  obtain ⟨-, -, -, -, hE, -, -, -, -, -, hK, -⟩ :=
    C3_at_most_one_response testEnv initSys [] (.result true) "/zzz" "q" "E"
      (bytes "M") (Json.arr [])
      (Json.obj [("headers", Json.obj []), ("body", Json.str "hi")])
      (Json.obj []) "hi" 7 (by decide) (by decide) (by decide) (by decide)
      (by decide) (by decide)
  obtain ⟨-, -, -, -, -, -, -, -, -, -, -, hM⟩ :=
    C3_at_most_one_response testEnv initSys [] (.result true) "/zzz" "q" "E"
      (bytes "J") (Json.arr []) (Json.obj []) (Json.obj []) "hi" 7
      (by decide) (by decide) (by decide) (by decide) (by decide) (by decide)
  have hKrun := (hK rfl rfl rfl).1 rfl
  have hMrun := hM rfl
  exact ⟨by rw [hE], by rw [hKrun], by rw [hMrun], by rw [hMrun]⟩

end MockAmqp
